import Mathlib

/-!
Verification of the KNX entity-store integration layer
(`homeassistant/components/knx/websocket.py` and
`homeassistant/components/knx/helpers/entity_store_schema.py`)
against its natural-language specification.

The repository ships only the websocket command layer and the entity-store
schemas; the configuration-store facade (`storage/config_store.py`) and the
host-platform helpers it relies on are not part of the source tree.  Where a
definition embeds code that is present in the source it follows that code
line by line; where the deciding code is absent its definition is modelled
from the specification and its doc comment says so explicitly.
-/

set_option maxRecDepth 4096

namespace KnxStore

/-- Loosely-typed JSON-like values as they arrive in a websocket message
payload.  This is the value universe over which the voluptuous schemas of
`entity_store_schema.py` operate. -/
inductive Value where
  | null : Value
  | str (s : String) : Value
  | bool (b : Bool) : Value
  | int (n : Int) : Value
  | list (vs : List Value) : Value

/-- A raw document: an ordered key-value mapping, the shallow embedding of a
Python `dict` as voluptuous sees it. -/
abbrev Doc : Type := List (String × Value)

/-- A field validator in the sense of voluptuous: it either rejects the
value or returns its normalized form. -/
abbrev Validator : Type := Value → Option Value

/-- Embedding of the bare `str` validator of voluptuous: accepts exactly
string instances, unchanged. -/
def vStr : Validator
  | Value.str s => some (Value.str s)
  | _ => none

/-- Embedding of the bare `bool` validator of voluptuous: accepts exactly
boolean instances, unchanged. -/
def vBool : Validator
  | Value.bool b => some (Value.bool b)
  | _ => none

/-- Embedding of a literal-value validator, as used for
`vol.Required("platform"): "switch"`: accepts exactly that string. -/
def vLiteral (lit : String) : Validator
  | Value.str s => if s = lit then some (Value.str s) else none
  | _ => none

/-- Embedding of `vol.Maybe(v)`: accepts `None` or whatever `v` accepts. -/
def vMaybe (v : Validator) : Validator
  | Value.null => some Value.null
  | w => v w

/-- Modelled from the spec: `ENTITY_CATEGORIES_SCHEMA`, imported from the
host platform (`homeassistant.helpers.entity`) and absent from the source
tree.  The spec restricts enumerated fields such as the entity category to
a closed set of allowed values; modelled as the closed set of entity
category names `config` and `diagnostic`. -/
def ENTITY_CATEGORIES_SCHEMA : Validator
  | Value.str s =>
      if s = "config" ∨ s = "diagnostic" then some (Value.str s) else none
  | _ => none

/-- Modelled from the spec: `SWITCH_DEVICE_CLASSES_SCHEMA`, imported from
the host platform (`homeassistant.components.switch`) and absent from the
source tree.  The spec restricts the device class to a closed set of
allowed values and its scenario uses `outlet`; modelled as the closed set
of switch device classes `outlet` and `switch`. -/
def SWITCH_DEVICE_CLASSES_SCHEMA : Validator
  | Value.str s =>
      if s = "outlet" ∨ s = "switch" then some (Value.str s) else none
  | _ => none

/-- Modelled from the spec: `sync_state_validator`, imported from
`..schema` and absent from the source tree.  The spec calls the field a
`sync_state` policy and its scenario uses the value `"init"`; modelled as
accepting booleans and the policy names `init`, `expire` and `every`. -/
def sync_state_validator : Validator
  | Value.bool b => some (Value.bool b)
  | Value.str s =>
      if s = "init" ∨ s = "expire" ∨ s = "every" then some (Value.str s)
      else none
  | _ => none

/-- Modelled from the spec: `ga_list_validator`, imported from `..schema`
and absent from the source tree.  The spec describes the address fields as
one-or-more group addresses and says normalization coerces a bare value
versus a list of values into one canonical shape; modelled as accepting a
group-address string (normalized to a singleton list) or a list of
group-address strings. -/
def ga_list_validator : Validator
  | Value.str s => some (Value.list [Value.str s])
  | Value.list vs =>
      if vs.all (fun v => match v with | Value.str _ => true | _ => false)
      then some (Value.list vs)
      else none
  | _ => none

/-- A voluptuous schema over required keys: the field list in declaration
order.  All fields of the source schemas are `vol.Required`. -/
abbrev SchemaFields : Type := List (String × Validator)

/-- Checks that every key of the document is declared by the schema: the
embedding of voluptuous' default `PREVENT_EXTRA` behavior (`extra keys not
allowed`), which `Schema.extend` inherits. -/
def noExtraKeys (fields : SchemaFields) (doc : Doc) : Bool :=
  doc.all (fun p => fields.any (fun f => f.1 == p.1))

/-- Validates every declared (required) field: the key must be present in
the document and its value accepted by the field's validator; the output
collects the normalized values. -/
def validateFields : SchemaFields → Doc → Option Doc
  | [], _ => some []
  | (k, vld) :: rest, doc =>
      match doc.lookup k with
      | none => none
      | some v =>
          match vld v with
          | none => none
          | some v' =>
              match validateFields rest doc with
              | none => none
              | some out => some ((k, v') :: out)

/-- Embedding of applying a `vol.Schema` built from required fields with
the default `PREVENT_EXTRA` policy: rejects unknown keys, requires every
declared key, validates and normalizes each value. -/
def applySchema (fields : SchemaFields) (doc : Doc) : Option Doc :=
  if noExtraKeys fields doc then validateFields fields doc else none

/-- Embedding of `BASE_ENTITY_SCHEMA` from `entity_store_schema.py`. -/
def BASE_ENTITY_SCHEMA : SchemaFields :=
  [("name", vStr),
   ("device_id", vMaybe vStr),
   ("entity_category", vMaybe ENTITY_CATEGORIES_SCHEMA),
   ("sync_state", sync_state_validator)]

/-- Embedding of `SWITCH_SCHEMA = BASE_ENTITY_SCHEMA.extend({...})` from
`entity_store_schema.py`. -/
def SWITCH_SCHEMA : SchemaFields :=
  BASE_ENTITY_SCHEMA ++
  [("device_class", vMaybe SWITCH_DEVICE_CLASSES_SCHEMA),
   ("invert", vBool),
   ("switch_address", ga_list_validator),
   ("switch_state_address", ga_list_validator),
   ("respond_to_read", vBool)]

/-- Embedding of `CREATE_ENTITY_SCHEMA = vol.Any(SWITCH_SCHEMA.extend(
{vol.Required("platform"): "switch"}))` from `entity_store_schema.py`:
the single alternative of the `vol.Any`. -/
def CREATE_ENTITY_SCHEMA : SchemaFields :=
  SWITCH_SCHEMA ++ [("platform", vLiteral "switch")]

/-- Embedding of `UPDATE_ENTITY_SCHEMA` from `entity_store_schema.py`:
`SWITCH_SCHEMA` extended with the required `platform` tag fixed to
`"switch"` and a required `unique_id` string. -/
def UPDATE_ENTITY_SCHEMA : SchemaFields :=
  SWITCH_SCHEMA ++ [("platform", vLiteral "switch"), ("unique_id", vStr)]

/-- Validation of a create-path document against `CREATE_ENTITY_SCHEMA`. -/
def validateCreate (doc : Doc) : Option Doc :=
  applySchema CREATE_ENTITY_SCHEMA doc

/-- Validation of an update-path document against `UPDATE_ENTITY_SCHEMA`. -/
def validateUpdate (doc : Doc) : Option Doc :=
  applySchema UPDATE_ENTITY_SCHEMA doc

/-- Validation of a bare switch data payload against `SWITCH_SCHEMA`. -/
def validateSwitch (doc : Doc) : Option Doc :=
  applySchema SWITCH_SCHEMA doc

/-- A well-formed sample switch payload, the scenario from the spec:
name Kitchen, no device, no category, sync_state init, no device class,
invert false, one switch address, one state address, no respond flag. -/
def kitchenDoc : Doc :=
  [("name", Value.str "Kitchen"),
   ("device_id", Value.null),
   ("entity_category", Value.null),
   ("sync_state", Value.str "init"),
   ("device_class", Value.null),
   ("invert", Value.bool false),
   ("switch_address", Value.str "1/1/1"),
   ("switch_state_address", Value.str "1/1/2"),
   ("respond_to_read", Value.bool false)]

/-- The normal form of `kitchenDoc`: bare group addresses coerced to
singleton lists, everything else unchanged. -/
def kitchenNorm : Doc :=
  [("name", Value.str "Kitchen"),
   ("device_id", Value.null),
   ("entity_category", Value.null),
   ("sync_state", Value.str "init"),
   ("device_class", Value.null),
   ("invert", Value.bool false),
   ("switch_address", Value.list [Value.str "1/1/1"]),
   ("switch_state_address", Value.list [Value.str "1/1/2"]),
   ("respond_to_read", Value.bool false)]

example : validateSwitch kitchenDoc = some kitchenNorm := rfl

/-- The error classes named by the spec (§7). -/
inductive ErrorKind where
  | ValidationError
  | UnknownPlatform
  | NotFound
  | DuplicateId
  | PlatformMismatch
  | InstantiationError
  | PersistenceError
  deriving DecidableEq

/-- The persisted form of an entity (§3 StoreRecord): unique id, platform
tag and normalized data.  Modelled from the spec: the source's random
token identifiers (`storage/config_store.py` is not in the source tree)
are modelled as naturals drawn from a counter, which preserves exactly the
property the spec demands of them, namely global freshness. -/
structure StoreRecord where
  unique_id : Nat
  platform : String
  data : Doc

/-- Modelled from the spec: the Entity Store (§4.2), a durable mapping
keyed by generated unique ids (`storage/config_store.py` is not in the
source tree).  `issued` records every identifier ever handed out, so that
freshness ("not previously issued") is expressible; `counter` is the id
generator state. -/
structure Store where
  records : List StoreRecord
  issued : List Nat
  counter : Nat

/-- The empty store. -/
def Store.empty : Store := ⟨[], [], 0⟩

/-- The ids currently present in the store, in insertion order. -/
def Store.ids (s : Store) : List Nat := s.records.map (fun r => r.unique_id)

/-- Store well-formedness: every stored id was issued, and every issued id
is below the generator counter (so the next generated id is fresh). -/
def Store.WF (s : Store) : Prop :=
  (∀ r ∈ s.records, r.unique_id ∈ s.issued) ∧ ∀ i ∈ s.issued, i < s.counter

/-- Modelled from the spec: `Store.add` (§4.2) generates a new unique
identifier, writes the new record and returns the identifier. -/
def Store.add (s : Store) (platform : String) (d : Doc) : Nat × Store :=
  (s.counter,
   { records := s.records ++ [⟨s.counter, platform, d⟩],
     issued := s.issued ++ [s.counter],
     counter := s.counter + 1 })

/-- Modelled from the spec: `Store.get` (§4.2), lookup by unique id. -/
def Store.get (s : Store) (id : Nat) : Option StoreRecord :=
  s.records.find? (fun r => r.unique_id == id)

/-- Modelled from the spec: `Store.update` (§4.2) replaces the data of the
record with the given id; the platform tag is unchanged. -/
def Store.updateData (s : Store) (id : Nat) (d : Doc) : Store :=
  { s with records :=
      s.records.map (fun r => if r.unique_id == id then ⟨r.unique_id, r.platform, d⟩ else r) }

/-- Modelled from the spec: `Store.remove` (§4.2) drops the record with
the given id; issued ids stay issued, so ids are never reused. -/
def Store.removeId (s : Store) (id : Nat) : Store :=
  { s with records := s.records.filter (fun r => r.unique_id != id) }

/-- The system state the facade operates on: the durable store plus the
set of live runtime entities (by unique id). -/
structure SysState where
  store : Store
  live : List Nat

/-- Modelled from the spec: the behavior of the external collaborators
during one operation — whether `Reconciler.instantiate` succeeds for a
given record, whether runtime teardown succeeds for a given id, and
whether the durable removal write succeeds. -/
structure Env where
  instantiateOk : StoreRecord → Bool
  teardownOk : Nat → Bool
  removeOk : Bool

/-- An environment in which every collaborator call succeeds. -/
def Env.allOk : Env := ⟨fun _ => true, fun _ => true, true⟩

/-- Observable side-effecting actions of one facade operation, in order:
store writes, reconciler calls and the best-effort teardown error log. -/
inductive Action where
  | storeAdd (id : Nat)
  | storeRemove (id : Nat)
  | instantiate (id : Nat)
  | teardown (id : Nat)
  | logTeardownError (id : Nat)
  deriving DecidableEq

/-- The outcome of one facade operation: the structured result returned to
the caller, the post state, and the trace of actions performed. -/
structure Outcome (α : Type) where
  result : Except ErrorKind α
  state : SysState
  trace : List Action

/-- Modelled from the spec: the Schema Validator contract (§4.1),
`validate(platform, rawData) -> NormalizedData | ValidationError`, failing
with `UnknownPlatform` when no schema variant is registered for the tag.
The only registered platform of the source tree is `switch`, validated by
the embedded `SWITCH_SCHEMA`. -/
def validatePlatform (platform : String) (raw : Doc) : Except ErrorKind Doc :=
  if platform = "switch" then
    match validateSwitch raw with
    | some d => Except.ok d
    | none => Except.error ErrorKind.ValidationError
  else Except.error ErrorKind.UnknownPlatform

/-- Modelled from the spec: `createEntity` (§4.4): Validate, then
`Store.add`, then `Reconciler.instantiate`; if instantiation fails the
facade compensates by removing the just-added record before surfacing
`InstantiationError`. -/
def createEntity (env : Env) (st : SysState) (platform : String) (raw : Doc) :
    Outcome (Nat × Doc) :=
  match validatePlatform platform raw with
  | Except.error e => ⟨Except.error e, st, []⟩
  | Except.ok d =>
      let id := st.store.counter
      let s' := (st.store.add platform d).2
      if env.instantiateOk ⟨id, platform, d⟩ then
        ⟨Except.ok (id, d), ⟨s', st.live ++ [id]⟩,
         [Action.storeAdd id, Action.instantiate id]⟩
      else
        ⟨Except.error ErrorKind.InstantiationError, ⟨s'.removeId id, st.live⟩,
         [Action.storeAdd id, Action.instantiate id, Action.storeRemove id]⟩

/-- Modelled from the spec: `getEntityConfig` (§4.4), a pure read
delegating to the Store, failing with `NotFound` when the id is absent. -/
def getEntityConfig (st : SysState) (id : Nat) : Except ErrorKind Doc :=
  match st.store.get id with
  | some r => Except.ok r.data
  | none => Except.error ErrorKind.NotFound

/-- Modelled from the spec: `listEntities` (§4.4), a pure read returning
the stored records in insertion order. -/
def listEntities (st : SysState) : List StoreRecord := st.store.records

/-- Modelled from the spec: `updateEntity` (§4.4): Validate (the platform
must match the existing record, else `PlatformMismatch`), `Store.update`,
then `Reconciler.replace`; if the replacement instantiation fails the
facade restores the previous data and surfaces `InstantiationError`. -/
def updateEntity (env : Env) (st : SysState) (platform : String) (id : Nat)
    (raw : Doc) : Outcome Doc :=
  match validatePlatform platform raw with
  | Except.error e => ⟨Except.error e, st, []⟩
  | Except.ok d =>
      match st.store.get id with
      | none => ⟨Except.error ErrorKind.NotFound, st, []⟩
      | some old =>
          if old.platform ≠ platform then
            ⟨Except.error ErrorKind.PlatformMismatch, st, []⟩
          else if env.instantiateOk ⟨id, platform, d⟩ then
            ⟨Except.ok d, ⟨st.store.updateData id d, st.live⟩,
             [Action.teardown id, Action.instantiate id]⟩
          else
            ⟨Except.error ErrorKind.InstantiationError, st,
             [Action.teardown id, Action.instantiate id, Action.teardown id,
              Action.instantiate id]⟩

/-- Modelled from the spec: `deleteEntity` (§4.4): `Reconciler.teardown`
first (best-effort; a teardown error is logged, not fatal), then
`Store.remove`, which fails with `NotFound` when the id is absent; a
failed removal write is surfaced but the teardown is not rolled back. -/
def deleteEntity (env : Env) (st : SysState) (id : Nat) : Outcome Unit :=
  let tdTrace :=
    if env.teardownOk id then [Action.teardown id]
    else [Action.teardown id, Action.logTeardownError id]
  let live' := st.live.filter (fun i => i != id)
  if st.store.records.any (fun r => r.unique_id == id) then
    if env.removeOk then
      ⟨Except.ok (), ⟨st.store.removeId id, live'⟩,
       tdTrace ++ [Action.storeRemove id]⟩
    else
      ⟨Except.error ErrorKind.PersistenceError, ⟨st.store, live'⟩, tdTrace⟩
  else
    ⟨Except.error ErrorKind.NotFound, ⟨st.store, live'⟩, tdTrace⟩

/-- Embedding of `websocket_api.const.ERR_HOME_ASSISTANT_ERROR`, the one
error code every handler of `websocket.py` passes to
`connection.send_error`. -/
def ERR_HOME_ASSISTANT_ERROR : String := "home_assistant_error"

/-- A payload sent back with `connection.send_result`. -/
inductive WsPayload where
  | doc (d : Doc)
  | docs (ds : List Doc)

/-- What one websocket command call sends back: exactly one of a success
result (with an optional payload) or an error with a code and message. -/
inductive WsResult where
  | ok (payload : Option WsPayload)
  | err (code : String) (message : String)

/-- The `str(err)` message of a facade error, one distinct line per error
class. -/
def errMsg : ErrorKind → String
  | ErrorKind.ValidationError => "validation error"
  | ErrorKind.UnknownPlatform => "unknown platform"
  | ErrorKind.NotFound => "not found"
  | ErrorKind.DuplicateId => "duplicate id"
  | ErrorKind.PlatformMismatch => "platform mismatch"
  | ErrorKind.InstantiationError => "instantiation error"
  | ErrorKind.PersistenceError => "persistence error"

/-- Embedding of `ws_create_entity` from `websocket.py`: call
`config_store.create_entitiy(platform, data)`; on a `ConfigStoreException`
send `ERR_HOME_ASSISTANT_ERROR` with `str(err)`, otherwise send a result
carrying no payload. -/
def ws_create_entity (env : Env) (st : SysState) (platform : String)
    (data : Doc) : WsResult × SysState :=
  let o := createEntity env st platform data
  match o.result with
  | Except.ok _ => (WsResult.ok none, o.state)
  | Except.error e => (WsResult.err ERR_HOME_ASSISTANT_ERROR (errMsg e), o.state)

/-- Embedding of `ws_update_entity` from `websocket.py`. -/
def ws_update_entity (env : Env) (st : SysState) (platform : String)
    (id : Nat) (data : Doc) : WsResult × SysState :=
  let o := updateEntity env st platform id data
  match o.result with
  | Except.ok _ => (WsResult.ok none, o.state)
  | Except.error e => (WsResult.err ERR_HOME_ASSISTANT_ERROR (errMsg e), o.state)

/-- Embedding of `ws_delete_entity` from `websocket.py`. -/
def ws_delete_entity (env : Env) (st : SysState) (id : Nat) :
    WsResult × SysState :=
  let o := deleteEntity env st id
  match o.result with
  | Except.ok _ => (WsResult.ok none, o.state)
  | Except.error e => (WsResult.err ERR_HOME_ASSISTANT_ERROR (errMsg e), o.state)

/-- Embedding of `ws_get_entity_config` from `websocket.py`: a missing id
is caught (`KeyError`) and answered with `ERR_HOME_ASSISTANT_ERROR` and
the message `Entity not found.`. -/
def ws_get_entity_config (st : SysState) (id : Nat) : WsResult :=
  match getEntityConfig st id with
  | Except.ok c => WsResult.ok (some (WsPayload.doc c))
  | Except.error _ => WsResult.err ERR_HOME_ASSISTANT_ERROR "Entity not found."

/-- Embedding of `ws_get_entity_entries` from `websocket.py`: sends the
configured entries; never errs. -/
def ws_get_entity_entries (st : SysState) : WsResult :=
  WsResult.ok (some (WsPayload.docs ((listEntities st).map (fun r => r.data))))

/-- A websocket command as registered with the host's `websocket_api`: its
`type` string and whether the handler is decorated with
`@websocket_api.require_admin`. -/
structure WsCommand where
  ctype : String
  requireAdmin : Bool
  deriving DecidableEq

/-- Embedding of the `ws_info` command of `websocket.py`. -/
def ws_info_command : WsCommand := ⟨"knx/info", true⟩

/-- Embedding of the `ws_project_file_process` command of `websocket.py`. -/
def ws_project_file_process_command : WsCommand := ⟨"knx/project_file_process", true⟩

/-- Embedding of the `ws_project_file_remove` command of `websocket.py`. -/
def ws_project_file_remove_command : WsCommand := ⟨"knx/project_file_remove", true⟩

/-- Embedding of the `ws_group_monitor_info` command of `websocket.py`. -/
def ws_group_monitor_info_command : WsCommand := ⟨"knx/group_monitor_info", true⟩

/-- Embedding of the `ws_subscribe_telegram` command of `websocket.py`. -/
def ws_subscribe_telegram_command : WsCommand := ⟨"knx/subscribe_telegrams", true⟩

/-- Embedding of the `ws_get_knx_project` command of `websocket.py`. -/
def ws_get_knx_project_command : WsCommand := ⟨"knx/get_knx_project", true⟩

/-- Embedding of the `ws_create_entity` command of `websocket.py`. -/
def ws_create_entity_command : WsCommand := ⟨"knx/create_entity", true⟩

/-- Embedding of the `ws_update_entity` command of `websocket.py`. -/
def ws_update_entity_command : WsCommand := ⟨"knx/update_entity", true⟩

/-- Embedding of the `ws_delete_entity` command of `websocket.py`. -/
def ws_delete_entity_command : WsCommand := ⟨"knx/delete_entity", true⟩

/-- Embedding of the `ws_get_entity_config` command of `websocket.py`. -/
def ws_get_entity_config_command : WsCommand := ⟨"knx/get_entity_config", true⟩

/-- Embedding of the `ws_get_entity_entries` command of `websocket.py`. -/
def ws_get_entity_entries_command : WsCommand := ⟨"knx/get_entity_entries", true⟩

/-- Embedding of the `ws_create_device` command of `websocket.py`. -/
def ws_create_device_command : WsCommand := ⟨"knx/create_device", true⟩

/-- The commands `register_panel` registers with
`websocket_api.async_register_command`, in source order. -/
def registerPanelCommands : List WsCommand :=
  [ws_info_command,
   ws_project_file_process_command,
   ws_project_file_remove_command,
   ws_group_monitor_info_command,
   ws_subscribe_telegram_command,
   ws_get_knx_project_command,
   ws_create_entity_command,
   ws_update_entity_command,
   ws_delete_entity_command,
   ws_get_entity_config_command,
   ws_get_entity_entries_command,
   ws_create_device_command]

/-- What the host dispatcher decides for an incoming call. -/
inductive DispatchOutcome where
  | unauthorized
  | handled
  deriving DecidableEq

/-- Modelled from the host platform's `websocket_api` semantics: the
`@websocket_api.require_admin` decorator rejects a call from a non-admin
connection with an unauthorized error before the decorated handler runs;
without the decoration the handler runs. -/
def dispatch (isAdmin : Bool) (cmd : WsCommand) : DispatchOutcome :=
  if cmd.requireAdmin && !isAdmin then DispatchOutcome.unauthorized
  else DispatchOutcome.handled

/-- Embedding of `DOMAIN`.  Modelled from the spec and source context: the
constant is imported from `.const`, which is not in the source tree; the
integration domain is `knx`. -/
def DOMAIN : String := "knx"

/-- Embedding of `URL_BASE` from `websocket.py`. -/
def URL_BASE : String := "/knx_static"

/-- The host-process state `register_panel` touches: the command registry
of `websocket_api`, the registered static paths, the registered frontend
panels (`hass.data["frontend_panels"]`, keyed by frontend url path) and a
count of `panel_custom.async_register_panel` calls. -/
structure PanelState where
  registeredCommands : List String
  staticPaths : List String
  frontendPanels : List String
  panelRegistrations : Nat
  deriving DecidableEq

/-- Modelled from the host platform's `websocket_api`: registering a
command keys the handler registry by the command type, so re-registering
an already-known type leaves the set of registered types unchanged. -/
def registerCommand (st : PanelState) (c : WsCommand) : PanelState :=
  if st.registeredCommands.contains c.ctype then st
  else { st with registeredCommands := st.registeredCommands ++ [c.ctype] }

/-- Embedding of `register_panel` from `websocket.py`: register the twelve
websocket commands, then — only when `DOMAIN` is not yet among the
registered frontend panels — register the static path and the custom
panel.  Registering the custom panel records `DOMAIN` (its frontend url
path) among the frontend panels, per the host's `panel_custom`
behavior. -/
def register_panel (st : PanelState) : PanelState :=
  let st1 := registerPanelCommands.foldl registerCommand st
  if DOMAIN ∈ st1.frontendPanels then st1
  else
    { st1 with
      staticPaths := st1.staticPaths ++ [URL_BASE],
      frontendPanels := st1.frontendPanels ++ [DOMAIN],
      panelRegistrations := st1.panelRegistrations + 1 }

/-- Acceptance of a single schema field as the spec words it: the field is
present in the document and its value is accepted by the field's
validator (required and correctly typed, enumerations restricted to their
closed sets). -/
def fieldAccepted (doc : Doc) (k : String) (vld : Validator) : Bool :=
  match doc.lookup k with
  | some v => (vld v).isSome
  | none => false

/-- The acceptance condition of the spec sentence for the switch schema:
every (required) field of `SWITCH_SCHEMA` present and accepted; the schema
declares no optional fields, so the optional-field condition is vacuous. -/
def claimSwitchOK (doc : Doc) : Bool :=
  SWITCH_SCHEMA.all (fun f => fieldAccepted doc f.1 f.2)

/-- The kitchen payload with one extra unknown key added. -/
def cexExtraDoc : Doc := kitchenDoc ++ [("extra", Value.bool true)]

/-- The kitchen payload as a full create/update document: platform tag and
a caller-supplied unique id. -/
def kitchenIdDoc : Doc :=
  kitchenDoc ++
  [("platform", Value.str "switch"), ("unique_id", Value.str "kitchen1")]

/-- The normal form of `kitchenIdDoc` under the update schema. -/
def kitchenIdNorm : Doc :=
  kitchenNorm ++
  [("platform", Value.str "switch"), ("unique_id", Value.str "kitchen1")]

/-- The initial system state: empty store, no live entities. -/
def initState : SysState := ⟨Store.empty, []⟩

/-- An environment in which runtime instantiation always fails. -/
def envInstFail : Env := ⟨fun _ => false, fun _ => true, true⟩

/-- An environment in which runtime teardown and the durable removal
write both fail. -/
def envTeardownRemoveFail : Env := ⟨fun _ => true, fun _ => false, false⟩

/-- The given environment with runtime teardown forced to succeed. -/
def Env.teardownAlwaysOk (e : Env) : Env :=
  ⟨e.instantiateOk, fun _ => true, e.removeOk⟩

/-- A state holding one stored switch entity with id 0, live. -/
def sampleState : SysState := ⟨⟨[⟨0, "switch", kitchenNorm⟩], [0], 1⟩, [0]⟩

/-- Whether a websocket reply is a success, or an error carrying the one
generic code `ERR_HOME_ASSISTANT_ERROR`. -/
def usesUniformErrorCode : WsResult → Prop
  | WsResult.ok _ => True
  | WsResult.err c _ => c = ERR_HOME_ASSISTANT_ERROR

/-- A host state in which the domain panel is already registered. -/
def panelStWithDomain : PanelState := ⟨[], [], ["knx"], 0⟩

/-- The empty store is well-formed. -/
theorem store_wf_empty : Store.WF Store.empty := by
  constructor <;> intro x hx <;> simp [Store.empty] at hx

/-- The one-record sample store is well-formed. -/
theorem store_wf_sample : Store.WF sampleState.store := by
  constructor
  · intro r hr
    simp [sampleState] at hr
    simp [hr, sampleState]
  · intro i hi
    simp [sampleState] at hi
    simp [hi, sampleState]

/-- In a well-formed store the next generated id was never issued. -/
theorem wf_counter_fresh {s : Store} (h : Store.WF s) : s.counter ∉ s.issued :=
  fun hmem => absurd (h.2 _ hmem) (lt_irrefl _)

/-- In a well-formed store no stored record carries the next id. -/
theorem wf_records_ne_counter {s : Store} (h : Store.WF s) :
    ∀ r ∈ s.records, r.unique_id ≠ s.counter :=
  fun r hr => Nat.ne_of_lt (h.2 _ (h.1 r hr))

/-- Field-wise success of `validateFields` is exactly the conjunction of
per-field acceptance. -/
theorem validateFields_isSome (fields : SchemaFields) (doc : Doc) :
    (validateFields fields doc).isSome =
      fields.all (fun f => fieldAccepted doc f.1 f.2) := by
  induction fields with
  | nil => rfl
  | cons f rest ih =>
      obtain ⟨k, vld⟩ := f
      simp only [validateFields, List.all_cons, ← ih]
      cases hl : doc.lookup k with
      | none => simp [fieldAccepted, hl]
      | some v =>
          cases hv : vld v with
          | none => simp [fieldAccepted, hl, hv]
          | some v' =>
              cases hr : validateFields rest doc with
              | none => simp [fieldAccepted, hl, hv, hr]
              | some out => simp [fieldAccepted, hl, hv, hr]

/-- A successful `validateFields` run looked every schema field up in the
input, accepted its value and emitted the normalized value under the same
key. -/
theorem validateFields_lookup {fields : SchemaFields} {doc out : Doc}
    (h : validateFields fields doc = some out) :
    ∀ k vld, (k, vld) ∈ fields →
      ∃ v v', doc.lookup k = some v ∧ vld v = some v' ∧ (k, v') ∈ out := by
  induction fields generalizing out with
  | nil => intro k vld hk; simp at hk
  | cons f rest ih =>
      intro k vld hk
      obtain ⟨kf, vf⟩ := f
      simp only [validateFields] at h
      cases hl : doc.lookup kf with
      | none => simp [hl] at h
      | some v =>
          simp only [hl] at h
          cases hv : vf v with
          | none => simp [hv] at h
          | some v' =>
              simp only [hv] at h
              cases hr : validateFields rest doc with
              | none => simp [hr] at h
              | some out' =>
                  simp only [hr] at h
                  have hout : (kf, v') :: out' = out := by
                    simpa using h
                  rcases List.mem_cons.mp hk with heq | hmem
                  · have hk1 : k = kf := congrArg Prod.fst heq
                    have hk2 : vld = vf := congrArg Prod.snd heq
                    subst hk1; subst hk2
                    exact ⟨v, v', hl, hv, hout ▸ List.mem_cons_self _ _⟩
                  · obtain ⟨v₀, v₀', h1, h2, h3⟩ := ih hr k vld hmem
                    exact ⟨v₀, v₀', h1, h2, hout ▸ List.mem_cons_of_mem _ h3⟩

/-- A success of `applySchema` splits into the extra-key check and the
field-wise validation. -/
theorem applySchema_eq_some {fields : SchemaFields} {doc out : Doc}
    (h : applySchema fields doc = some out) :
    noExtraKeys fields doc = true ∧ validateFields fields doc = some out := by
  unfold applySchema at h
  cases hk : noExtraKeys fields doc with
  | false => rw [hk] at h; exact absurd h (by simp)
  | true => rw [hk] at h; exact ⟨rfl, h⟩

/-- The bare string validator accepts exactly strings, unchanged. -/
theorem vStr_some {v v' : Value} (h : vStr v = some v') :
    ∃ s, v = Value.str s ∧ v' = Value.str s := by
  cases v with
  | str s => exact ⟨s, rfl, by simpa [vStr] using h.symm⟩
  | null => exact absurd h (by simp [vStr])
  | bool b => exact absurd h (by simp [vStr])
  | int n => exact absurd h (by simp [vStr])
  | list vs => exact absurd h (by simp [vStr])

/-- The literal validator accepts exactly the literal string. -/
theorem vLiteral_some {lit : String} {v v' : Value}
    (h : vLiteral lit v = some v') : v = Value.str lit := by
  cases v with
  | str s =>
      simp only [vLiteral] at h
      split at h
      · next heq => rw [heq]
      · exact absurd h (by simp)
  | null => exact absurd h (by simp [vLiteral])
  | bool b => exact absurd h (by simp [vLiteral])
  | int n => exact absurd h (by simp [vLiteral])
  | list vs => exact absurd h (by simp [vLiteral])

/-- One `registerCommand` step leaves every panel-related component of the
host state unchanged. -/
theorem registerCommand_preserves (st : PanelState) (c : WsCommand) :
    (registerCommand st c).frontendPanels = st.frontendPanels ∧
    (registerCommand st c).staticPaths = st.staticPaths ∧
    (registerCommand st c).panelRegistrations = st.panelRegistrations := by
  unfold registerCommand
  split <;> exact ⟨rfl, rfl, rfl⟩

/-- Folding command registration over any command list leaves every
panel-related component of the host state unchanged. -/
theorem foldl_registerCommand_preserves (l : List WsCommand) (st : PanelState) :
    (l.foldl registerCommand st).frontendPanels = st.frontendPanels ∧
    (l.foldl registerCommand st).staticPaths = st.staticPaths ∧
    (l.foldl registerCommand st).panelRegistrations = st.panelRegistrations := by
  induction l generalizing st with
  | nil => exact ⟨rfl, rfl, rfl⟩
  | cons c rest ih =>
      simp only [List.foldl_cons]
      obtain ⟨h1, h2, h3⟩ := ih (registerCommand st c)
      obtain ⟨g1, g2, g3⟩ := registerCommand_preserves st c
      exact ⟨h1.trans g1, h2.trans g2, h3.trans g3⟩

/-- After any `register_panel` call the domain is registered among the
frontend panels. -/
theorem register_panel_domain_mem (st : PanelState) :
    DOMAIN ∈ (register_panel st).frontendPanels := by
  by_cases h :
      DOMAIN ∈ (registerPanelCommands.foldl registerCommand st).frontendPanels
  · simp [register_panel, h]
  · simp [register_panel, h]

/-- Counterexample for C1: on a valid (platform, data) pair the websocket
create handler answers with `send_result` carrying no payload at all —
in particular the freshly generated unique id is not returned to the
caller, contrary to the claim as stated. -/
theorem create_reply_carries_no_unique_id :
    (ws_create_entity Env.allOk initState "switch" kitchenDoc).1 =
      WsResult.ok none :=
  rfl

/-- C1 (amended): for every valid (platform, data) pair, under an
environment where instantiation succeeds, the create operation succeeds
and generates a fresh unique id never previously issued, and a subsequent
`getEntityConfig` on that id returns the normalized data; the unique id
is, however, not included in the websocket success reply to the caller. -/
theorem createEntity_fresh_id_get_roundtrip (env : Env) (st : SysState)
    (raw d : Doc) (hwf : Store.WF st.store)
    (hval : validateSwitch raw = some d)
    (hinst : env.instantiateOk ⟨st.store.counter, "switch", d⟩ = true) :
    (createEntity env st "switch" raw).result =
      Except.ok (st.store.counter, d) ∧
    st.store.counter ∉ st.store.issued ∧
    getEntityConfig (createEntity env st "switch" raw).state
      st.store.counter = Except.ok d ∧
    (ws_create_entity env st "switch" raw).1 = WsResult.ok none := by
  have hnone : st.store.records.find?
      (fun r => r.unique_id == st.store.counter) = none :=
    List.find?_eq_none.mpr
      (fun r hr => by simpa using wf_records_ne_counter hwf r hr)
  refine ⟨?_, wf_counter_fresh hwf, ?_, ?_⟩
  · simp [createEntity, validatePlatform, hval, hinst]
  · simp [createEntity, validatePlatform, hval, hinst, getEntityConfig,
      Store.get, Store.add, List.find?_append, hnone]
  · simp [ws_create_entity, createEntity, validatePlatform, hval, hinst]

/-- Witness for C1 (amended): creating the kitchen switch in the empty
store returns the fresh id 0, never issued before, and reading id 0 back
returns the normalized kitchen payload; the websocket reply is a bare
success without the id. -/
theorem createEntity_fresh_id_get_roundtrip_witness :
    (createEntity Env.allOk initState "switch" kitchenDoc).result =
      Except.ok (0, kitchenNorm) ∧
    (0 : Nat) ∉ Store.empty.issued ∧
    getEntityConfig (createEntity Env.allOk initState "switch" kitchenDoc).state
      0 = Except.ok kitchenNorm ∧
    (ws_create_entity Env.allOk initState "switch" kitchenDoc).1 =
      WsResult.ok none :=
  createEntity_fresh_id_get_roundtrip Env.allOk initState kitchenDoc
    kitchenNorm store_wf_empty rfl rfl

/-- C3: when the store commit succeeds but runtime instantiation then
fails, the facade removes the just-added record before surfacing the
error: the create operation fails with `InstantiationError` and the store
afterwards contains no record for the attempted id — `listEntities` is
exactly as before. -/
theorem createEntity_compensates_failed_instantiation (env : Env)
    (st : SysState) (raw d : Doc) (hwf : Store.WF st.store)
    (hval : validateSwitch raw = some d)
    (hinst : env.instantiateOk ⟨st.store.counter, "switch", d⟩ = false) :
    (createEntity env st "switch" raw).result =
      Except.error ErrorKind.InstantiationError ∧
    listEntities (createEntity env st "switch" raw).state = listEntities st ∧
    st.store.counter ∉
      (listEntities (createEntity env st "switch" raw).state).map
        (fun r => r.unique_id) := by
  have hfil : (st.store.records ++
      [(⟨st.store.counter, "switch", d⟩ : StoreRecord)]).filter
      (fun r => r.unique_id != st.store.counter) = st.store.records := by
    rw [List.filter_append]
    have h1 : st.store.records.filter
        (fun r => r.unique_id != st.store.counter) = st.store.records :=
      List.filter_eq_self.mpr
        (fun r hr => by simpa using wf_records_ne_counter hwf r hr)
    have h2 : ([⟨st.store.counter, "switch", d⟩] : List StoreRecord).filter
        (fun r => r.unique_id != st.store.counter) = [] := by simp
    rw [h1, h2, List.append_nil]
  have hrecords : (createEntity env st "switch" raw).state.store.records =
      st.store.records := by
    simp [createEntity, validatePlatform, hval, hinst, Store.removeId,
      Store.add, hfil]
  refine ⟨?_, ?_, ?_⟩
  · simp [createEntity, validatePlatform, hval, hinst]
  · simp [listEntities, hrecords]
  · simp only [listEntities, hrecords]
    intro hmem
    obtain ⟨r, hr, hre⟩ := List.mem_map.mp hmem
    exact wf_records_ne_counter hwf r hr hre

/-- Witness for C3: with instantiation forced to fail, creating the
kitchen switch in the empty store fails with `InstantiationError` and the
listing stays empty — no record for the attempted id 0. -/
theorem createEntity_compensates_failed_instantiation_witness :
    (createEntity envInstFail initState "switch" kitchenDoc).result =
      Except.error ErrorKind.InstantiationError ∧
    listEntities (createEntity envInstFail initState "switch" kitchenDoc).state =
      listEntities initState ∧
    (0 : Nat) ∉
      (listEntities (createEntity envInstFail initState "switch" kitchenDoc).state).map
        (fun r => r.unique_id) :=
  createEntity_compensates_failed_instantiation envInstFail initState
    kitchenDoc kitchenNorm store_wf_empty rfl rfl

/-- C4: the create-path validator rejects every document that already
carries a `unique_id` key; the update-path validator accepts a document
only if it carries a string `unique_id`, which is passed through to the
normalized output, and it fixes the platform tag to `switch`, so an
update cannot retarget an entity to a different platform. -/
theorem entity_schema_create_rejects_update_requires_unique_id
    (docC docU out : Doc)
    (hC : docC.any (fun p => p.1 == "unique_id") = true)
    (hU : validateUpdate docU = some out) :
    validateCreate docC = none ∧
    (∃ s, docU.lookup "unique_id" = some (Value.str s) ∧
      ("unique_id", Value.str s) ∈ out) ∧
    docU.lookup "platform" = some (Value.str "switch") := by
  have hkeys : CREATE_ENTITY_SCHEMA.any (fun f => f.1 == "unique_id") = false := by
    rfl
  have hextra : noExtraKeys CREATE_ENTITY_SCHEMA docC = false := by
    rw [Bool.eq_false_iff]
    intro hall
    simp only [noExtraKeys] at hall
    obtain ⟨p, hp, hpe⟩ := List.any_eq_true.mp hC
    have hmem := List.all_eq_true.mp hall p hp
    have hp1 : p.1 = "unique_id" := by simpa using hpe
    rw [hp1] at hmem
    rw [hkeys] at hmem
    exact absurd hmem (by simp)
  obtain ⟨hek, hvf⟩ := applySchema_eq_some hU
  have hmemU : ("unique_id", vStr) ∈ UPDATE_ENTITY_SCHEMA := by
    simp [UPDATE_ENTITY_SCHEMA, SWITCH_SCHEMA, BASE_ENTITY_SCHEMA]
  have hmemP : ("platform", vLiteral "switch") ∈ UPDATE_ENTITY_SCHEMA := by
    simp [UPDATE_ENTITY_SCHEMA, SWITCH_SCHEMA, BASE_ENTITY_SCHEMA]
  obtain ⟨v, v', hlook, hvs, hout⟩ :=
    validateFields_lookup hvf "unique_id" vStr hmemU
  obtain ⟨s, hv, hv'⟩ := vStr_some hvs
  obtain ⟨v2, v2', hlook2, hvl, _⟩ :=
    validateFields_lookup hvf "platform" (vLiteral "switch") hmemP
  have hv2 := vLiteral_some hvl
  refine ⟨?_, ⟨s, ?_, ?_⟩, ?_⟩
  · unfold validateCreate applySchema
    rw [hextra]
    simp
  · rw [hv] at hlook; exact hlook
  · rw [← hv']; exact hout
  · rw [hv2] at hlook2; exact hlook2

/-- Witness for C4: the kitchen document with a caller-supplied unique id
is rejected on the create path, accepted on the update path with its
unique id passed through, and its platform tag is the fixed `switch`. -/
theorem entity_schema_create_rejects_update_requires_unique_id_witness :
    validateCreate kitchenIdDoc = none ∧
    (∃ s, kitchenIdDoc.lookup "unique_id" = some (Value.str s) ∧
      ("unique_id", Value.str s) ∈ kitchenIdNorm) ∧
    kitchenIdDoc.lookup "platform" = some (Value.str "switch") :=
  entity_schema_create_rejects_update_requires_unique_id kitchenIdDoc
    kitchenIdDoc kitchenIdNorm rfl rfl

/-- C6: for every id with no record in the store, `getEntityConfig` fails
with `NotFound` (surfaced by the websocket layer as `Entity not found.`)
and `deleteEntity` on that id fails with `NotFound` while leaving the
store unchanged — a repeated delete of an already-deleted id is an error,
not a no-op. -/
theorem missing_id_not_found_delete_unchanged (env : Env) (st : SysState)
    (id : Nat) (h : id ∉ st.store.ids) :
    getEntityConfig st id = Except.error ErrorKind.NotFound ∧
    ws_get_entity_config st id =
      WsResult.err ERR_HOME_ASSISTANT_ERROR "Entity not found." ∧
    (deleteEntity env st id).result = Except.error ErrorKind.NotFound ∧
    (deleteEntity env st id).state.store = st.store := by
  have hne : ∀ r ∈ st.store.records, r.unique_id ≠ id := by
    intro r hr heq
    apply h
    show id ∈ st.store.records.map (fun r => r.unique_id)
    exact heq ▸ List.mem_map_of_mem _ hr
  have hfind : st.store.records.find? (fun r => r.unique_id == id) = none :=
    List.find?_eq_none.mpr (fun r hr => by simpa using hne r hr)
  have hany : st.store.records.any (fun r => r.unique_id == id) = false := by
    rw [Bool.eq_false_iff]
    intro hc
    obtain ⟨r, hr, hp⟩ := List.any_eq_true.mp hc
    exact hne r hr (by simpa using hp)
  refine ⟨?_, ?_, ?_, ?_⟩
  · simp [getEntityConfig, Store.get, hfind]
  · simp [ws_get_entity_config, getEntityConfig, Store.get, hfind]
  · simp [deleteEntity, hany]
  · simp [deleteEntity, hany]

/-- Witness for C6: in the empty store, reading id 0 answers `NotFound`
(`Entity not found.` on the websocket), deleting id 0 answers `NotFound`
and the store is unchanged. -/
theorem missing_id_not_found_delete_unchanged_witness :
    getEntityConfig initState 0 = Except.error ErrorKind.NotFound ∧
    ws_get_entity_config initState 0 =
      WsResult.err ERR_HOME_ASSISTANT_ERROR "Entity not found." ∧
    (deleteEntity Env.allOk initState 0).result =
      Except.error ErrorKind.NotFound ∧
    (deleteEntity Env.allOk initState 0).state.store = initState.store :=
  missing_id_not_found_delete_unchanged Env.allOk initState 0
    (by simp [initState, Store.empty, Store.ids])

/-- C7: in every delete of a stored id the runtime teardown is the first
action performed, so it precedes any store removal; a teardown error is
logged but not fatal — the result and the post state are the same as if
teardown had succeeded; and a failed store removal is not rolled back:
the operation reports `PersistenceError` while the record stays persisted
and the live entity remains torn down. -/
theorem delete_teardown_first_no_rollback (env : Env) (st : SysState)
    (id : Nat) (hin : id ∈ st.store.ids) :
    (deleteEntity env st id).trace.head? = some (Action.teardown id) ∧
    (deleteEntity env st id).result =
      (deleteEntity env.teardownAlwaysOk st id).result ∧
    (deleteEntity env st id).state =
      (deleteEntity env.teardownAlwaysOk st id).state ∧
    (env.teardownOk id = false →
      Action.logTeardownError id ∈ (deleteEntity env st id).trace) ∧
    (env.removeOk = false →
      (deleteEntity env st id).result =
        Except.error ErrorKind.PersistenceError ∧
      id ∉ (deleteEntity env st id).state.live ∧
      (deleteEntity env st id).state.store = st.store) := by
  have hin' : id ∈ st.store.records.map (fun r => r.unique_id) := hin
  have hany : st.store.records.any (fun r => r.unique_id == id) = true := by
    obtain ⟨r, hr, hre⟩ := List.mem_map.mp hin'
    exact List.any_eq_true.mpr ⟨r, hr, by simp [hre]⟩
  refine ⟨?_, ?_, ?_, ?_, ?_⟩
  · by_cases htd : env.teardownOk id <;> by_cases hrm : env.removeOk <;>
      simp [deleteEntity, htd, hrm, hany]
  · by_cases htd : env.teardownOk id <;> by_cases hrm : env.removeOk <;>
      simp [deleteEntity, Env.teardownAlwaysOk, htd, hrm, hany]
  · by_cases htd : env.teardownOk id <;> by_cases hrm : env.removeOk <;>
      simp [deleteEntity, Env.teardownAlwaysOk, htd, hrm, hany]
  · intro htd
    by_cases hrm : env.removeOk <;> simp [deleteEntity, htd, hrm, hany]
  · intro hrm
    by_cases htd : env.teardownOk id <;>
      simp [deleteEntity, htd, hrm, hany]

/-- Witness for C7: deleting the stored id 0 while both teardown and the
removal write fail: the trace starts with the teardown, the teardown
failure is logged, the call reports `PersistenceError`, the live entity
is gone and the record is still persisted. -/
theorem delete_teardown_first_no_rollback_witness :
    (deleteEntity envTeardownRemoveFail sampleState 0).trace.head? =
      some (Action.teardown 0) ∧
    Action.logTeardownError 0 ∈
      (deleteEntity envTeardownRemoveFail sampleState 0).trace ∧
    (deleteEntity envTeardownRemoveFail sampleState 0).result =
      Except.error ErrorKind.PersistenceError ∧
    (0 : Nat) ∉ (deleteEntity envTeardownRemoveFail sampleState 0).state.live ∧
    (deleteEntity envTeardownRemoveFail sampleState 0).state.store =
      sampleState.store := by
  have h := delete_teardown_first_no_rollback envTeardownRemoveFail
    sampleState 0 (by simp [sampleState, Store.ids])
  exact ⟨h.1, h.2.2.2.1 rfl, (h.2.2.2.2 rfl).1, (h.2.2.2.2 rfl).2.1,
    (h.2.2.2.2 rfl).2.2⟩

/-- C2: for every document that is invalid against the platform schema
(for example, a required field missing), the create operation fails with
`ValidationError` and the store is left unchanged — `listEntities`
afterwards equals `listEntities` before, with no orphan record. -/
theorem createEntity_invalid_data_rejected (env : Env) (st : SysState)
    (raw : Doc) (hval : validateSwitch raw = none) :
    (createEntity env st "switch" raw).result =
      Except.error ErrorKind.ValidationError ∧
    listEntities (createEntity env st "switch" raw).state = listEntities st ∧
    (createEntity env st "switch" raw).state = st := by
  simp [createEntity, validatePlatform, hval, listEntities]

/-- Witness for C2: the empty document is missing every required field,
the create operation rejects it with `ValidationError` and the state is
untouched. -/
theorem createEntity_invalid_data_rejected_witness :
    (createEntity Env.allOk initState "switch" []).result =
      Except.error ErrorKind.ValidationError ∧
    listEntities (createEntity Env.allOk initState "switch" []).state =
      listEntities initState ∧
    (createEntity Env.allOk initState "switch" []).state = initState :=
  createEntity_invalid_data_rejected Env.allOk initState [] rfl

/-- Counterexample for C5: a switch document whose nine required fields
are all present, correctly typed and within the allowed enumerations is
nevertheless rejected when it carries one extra unknown key, because the
schema forbids unknown keys (`PREVENT_EXTRA`); the claimed acceptance
condition holds of it while validation fails. -/
theorem switch_schema_rejects_unknown_key :
    validateSwitch cexExtraDoc = none ∧ claimSwitchOK cexExtraDoc = true :=
  ⟨rfl, rfl⟩

/-- C5 (amended): validation of a raw switch document succeeds exactly
when all required fields are present, correctly typed and within their
closed enumerations, AND the document carries no key beyond the schema's
declared fields. -/
theorem switch_schema_accepts_iff_fields_and_no_extra (doc : Doc) :
    (validateSwitch doc).isSome =
      (claimSwitchOK doc && noExtraKeys SWITCH_SCHEMA doc) := by
  unfold validateSwitch applySchema claimSwitchOK
  cases h : noExtraKeys SWITCH_SCHEMA doc with
  | false => simp [h]
  | true => simp [h, validateFields_isSome]

/-- Counterexample for C8: a delete of a missing id fails with the
`NotFound` class and a create whose instantiation fails surfaces the
`InstantiationError` class, yet both websocket replies carry the one code
`ERR_HOME_ASSISTANT_ERROR`: the errorKind sent to the caller does not
distinguish the error classes; only the message differs. -/
theorem distinct_error_classes_share_ws_code :
    (deleteEntity Env.allOk initState 0).result =
      Except.error ErrorKind.NotFound ∧
    (createEntity envInstFail initState "switch" kitchenDoc).result =
      Except.error ErrorKind.InstantiationError ∧
    (ws_delete_entity Env.allOk initState 0).1 =
      WsResult.err ERR_HOME_ASSISTANT_ERROR (errMsg ErrorKind.NotFound) ∧
    (ws_create_entity envInstFail initState "switch" kitchenDoc).1 =
      WsResult.err ERR_HOME_ASSISTANT_ERROR
        (errMsg ErrorKind.InstantiationError) ∧
    decide (ErrorKind.NotFound = ErrorKind.InstantiationError) = false :=
  ⟨rfl, rfl, rfl, rfl, rfl⟩

/-- C8 (amended): every websocket call returns exactly one of two
outcomes — a success result or an error pair of code and message — and
every error reply carries the single generic code
`ERR_HOME_ASSISTANT_ERROR`; the error classes are told apart only by the
message text. -/
theorem ws_calls_single_outcome_uniform_code (env : Env) (st : SysState)
    (platform : String) (id : Nat) (raw : Doc) :
    usesUniformErrorCode (ws_create_entity env st platform raw).1 ∧
    usesUniformErrorCode (ws_update_entity env st platform id raw).1 ∧
    usesUniformErrorCode (ws_delete_entity env st id).1 ∧
    usesUniformErrorCode (ws_get_entity_config st id) ∧
    usesUniformErrorCode (ws_get_entity_entries st) := by
  refine ⟨?_, ?_, ?_, ?_, trivial⟩
  · unfold ws_create_entity
    cases h : (createEntity env st platform raw).result <;>
      simp [h, usesUniformErrorCode]
  · unfold ws_update_entity
    cases h : (updateEntity env st platform id raw).result <;>
      simp [h, usesUniformErrorCode]
  · unfold ws_delete_entity
    cases h : (deleteEntity env st id).result <;>
      simp [h, usesUniformErrorCode]
  · unfold ws_get_entity_config
    cases h : getEntityConfig st id <;> simp [h, usesUniformErrorCode]

/-- C9: every websocket command registered by `register_panel` carries the
admin-privilege requirement, and for every non-admin caller the dispatcher
rejects the call as unauthorized before the handler runs. -/
theorem registered_commands_require_admin (cmd : WsCommand)
    (hmem : cmd ∈ registerPanelCommands) (isAdmin : Bool)
    (hAdmin : isAdmin = false) :
    cmd.requireAdmin = true ∧
    dispatch isAdmin cmd = DispatchOutcome.unauthorized := by
  have hall : ∀ c ∈ registerPanelCommands, c.requireAdmin = true := by decide
  have h1 := hall cmd hmem
  subst hAdmin
  exact ⟨h1, by simp [dispatch, h1]⟩

/-- Witness for C9: the entity-creation command is among the registered
commands, requires admin and is rejected for a non-admin caller. -/
theorem registered_commands_require_admin_witness :
    ws_create_entity_command.requireAdmin = true ∧
    dispatch false ws_create_entity_command = DispatchOutcome.unauthorized :=
  registered_commands_require_admin ws_create_entity_command
    (by simp [registerPanelCommands]) false rfl

/-- C10: `register_panel` registers the static path and the custom panel
only when the domain is not already present among the registered frontend
panels, so a second `register_panel` call performs no second panel
registration. -/
theorem register_panel_frontend_idempotent (st : PanelState) :
    (DOMAIN ∈ st.frontendPanels →
      (register_panel st).staticPaths = st.staticPaths ∧
      (register_panel st).panelRegistrations = st.panelRegistrations) ∧
    (register_panel (register_panel st)).staticPaths =
      (register_panel st).staticPaths ∧
    (register_panel (register_panel st)).panelRegistrations =
      (register_panel st).panelRegistrations := by
  have key : ∀ s : PanelState, DOMAIN ∈ s.frontendPanels →
      (register_panel s).staticPaths = s.staticPaths ∧
      (register_panel s).panelRegistrations = s.panelRegistrations := by
    intro s hs
    obtain ⟨f1, f2, f3⟩ := foldl_registerCommand_preserves registerPanelCommands s
    have hmem :
        DOMAIN ∈ (registerPanelCommands.foldl registerCommand s).frontendPanels := by
      rw [f1]; exact hs
    constructor
    · simp [register_panel, hmem, f2]
    · simp [register_panel, hmem, f3]
  exact ⟨key st, key (register_panel st) (register_panel_domain_mem st)⟩

/-- Witness for C10: on a host state whose frontend panels already hold
the domain, `register_panel` performs no panel registration, and a second
call after a first one registers nothing further. -/
theorem register_panel_frontend_idempotent_witness :
    ((register_panel panelStWithDomain).staticPaths =
        panelStWithDomain.staticPaths ∧
      (register_panel panelStWithDomain).panelRegistrations =
        panelStWithDomain.panelRegistrations) ∧
    (register_panel (register_panel panelStWithDomain)).staticPaths =
      (register_panel panelStWithDomain).staticPaths ∧
    (register_panel (register_panel panelStWithDomain)).panelRegistrations =
      (register_panel panelStWithDomain).panelRegistrations := by
  have h := register_panel_frontend_idempotent panelStWithDomain
  exact ⟨h.1 (by simp [panelStWithDomain, DOMAIN]), h.2⟩

end KnxStore
